import Mathlib

/-!
Shallow embedding of the node-tile38 query builder (`src/tile38_query.ts`)
and the live-geofence streaming channel (`LiveGeofence`), with theorems
settling the spec claims about them.

Modelling conventions:
* JS argument values pushed into command arrays are modelled by `Arg`:
  strings, numbers, or the JS `undefined` value.  Numeric arguments are
  modelled as `Int`; the builder performs no arithmetic on them other than
  taking a list length (`whereIn`/`whereEval` counts) and the range
  comparison in `hashes`, both of which agree with JS number semantics on
  integers.
* `JSON.stringify` of a geometry payload (in `object`) is external; the
  embedded method takes the already-stringified text.
* The network client (`RedisClient`) is an external collaborator; `execute`
  and `executeFence` are modelled by the state effect plus the argument
  sequence they hand to the client.
-/

/-- A single element of a Tile38 command argument array: a JS string,
a JS number, or the JS `undefined` value (which `output('hashes')` can
store when called without a precision). -/
inductive Arg
| str (s : String)
| num (n : Int)
| undefined
deriving DecidableEq, Repr

/-- The `OrderType` enum: `Ascending = "ASC"`, `Descending = "DESC"`. -/
inductive OrderType
| ascending
| descending
deriving DecidableEq, Repr

/-- The string value carried by each `OrderType` enum member. -/
def OrderType.val : OrderType → String
| .ascending => "ASC"
| .descending => "DESC"

/-- `Tile38QueryOpts`: the option bag of the builder, with the source's
initializers.  Fields typed `T | undefined` in the source become `Option`;
the accumulating fields (`matches`, `where`, `whereIn`, `whereEval`,
`whereEvalSha`) are initialized to empty arrays in the source, hence plain
lists here.  `order` is initialized to `OrderType.Ascending`.  The TS field
`where` is called `where_` because `where` is a Lean keyword. -/
structure Tile38QueryOpts where
  matches_ : List Arg := []
  order : OrderType := .ascending
  distance : Option String := none
  where_ : List Arg := []
  whereIn : List Arg := []
  whereEval : List Arg := []
  whereEvalSha : List Arg := []
  clip : Option String := none
  nofields : Option String := none
  detect : Option (List Arg) := none
  commands : Option (List Arg) := none
  output : Option (List Arg) := none
  getObject : Option (List Arg) := none
  bounds : Option (List Arg) := none
  geojson : Option (List Arg) := none
  tile : Option (List Arg) := none
  quadKey : Option (List Arg) := none
  hash : Option (List Arg) := none
  circle : Option (List Arg) := none
  point : Option (List Arg) := none
  roam : Option (List Arg) := none
  fence : Option String := none
  cursor : Option (List Arg) := none
  limit : Option (List Arg) := none
  sparse : Option (List Arg) := none
deriving DecidableEq, Repr

/-- `addToArray(arr1, arr2)` from the source: `arr1 ? arr1.concat(arr2) : arr2`.
Every accumulating field it is applied to is initialized to `[]`, and an
empty JS array is truthy, so the concat branch is always the one taken. -/
def addToArray (arr1 arr2 : List Arg) : List Arg := arr1 ++ arr2

/-- The builder: search verb `type`, collection `key`, and the option bag.
The `client` field of the source is an external I/O collaborator and is
not part of the serializable state. -/
structure Tile38Query where
  type : String
  key : String
  options : Tile38QueryOpts
deriving DecidableEq, Repr

/-- The constructor `new Tile38Query(type, key, client)`: fresh option bag. -/
def Tile38Query.make (type key : String) : Tile38Query :=
  ⟨type, key, {}⟩

/-- Factory `Tile38Query.intersects(key)`. -/
def Tile38Query.intersects (key : String) : Tile38Query :=
  Tile38Query.make "INTERSECTS" key

/-- `cursor(start)`. -/
def Tile38Query.cursor (q : Tile38Query) (start : Int) : Tile38Query :=
  { q with options := { q.options with cursor := some [.str "CURSOR", .num start] } }

/-- `limit(count)`. -/
def Tile38Query.limit (q : Tile38Query) (count : Int) : Tile38Query :=
  { q with options := { q.options with limit := some [.str "LIMIT", .num count] } }

/-- `sparse(spread)`. -/
def Tile38Query.sparse (q : Tile38Query) (spread : Int) : Tile38Query :=
  { q with options := { q.options with sparse := some [.str "SPARSE", .num spread] } }

/-- `match(value)`: appends `["MATCH", value]` to `options.matches_`. -/
def Tile38Query.match_ (q : Tile38Query) (value : String) : Tile38Query :=
  { q with options :=
    { q.options with matches_ := addToArray q.options.matches_ [.str "MATCH", .str value] } }

/-- `order(val)`. -/
def Tile38Query.order (q : Tile38Query) (val : OrderType) : Tile38Query :=
  { q with options := { q.options with order := val } }

/-- `asc()` is `order(Ascending)`. -/
def Tile38Query.asc (q : Tile38Query) : Tile38Query :=
  q.order .ascending

/-- `desc()` is `order(Descending)`. -/
def Tile38Query.desc (q : Tile38Query) : Tile38Query :=
  q.order .descending

/-- `distance()`. -/
def Tile38Query.distance (q : Tile38Query) : Tile38Query :=
  { q with options := { q.options with distance := some "DISTANCE" } }

/-- `where(field, ...criteria)`: appends `["WHERE", field].concat(criteria)`. -/
def Tile38Query.where_ (q : Tile38Query) (field : String) (criteria : List Arg) : Tile38Query :=
  { q with options :=
    { q.options with where_ := addToArray q.options.where_ ([.str "WHERE", .str field] ++ criteria) } }

/-- The `let arr` of `whereIn`: `["WHEREIN", field, values.length].concat(values)`. -/
def whereInArr (field : String) (values : List Arg) : List Arg :=
  [.str "WHEREIN", .str field, .num values.length] ++ values

/-- `whereIn(field, ...values)`: appends `whereInArr field values`. -/
def Tile38Query.whereIn (q : Tile38Query) (field : String) (values : List Arg) : Tile38Query :=
  { q with options := { q.options with whereIn := addToArray q.options.whereIn (whereInArr field values) } }

/-- The `let arr` of `whereEval`: the script is wrapped in double quotes. -/
def whereEvalArr (script : String) (args : List Arg) : List Arg :=
  [.str "WHEREEVAL", .str ("\"" ++ script ++ "\""), .num args.length] ++ args

/-- `whereEval(script, ...args)`: appends `whereEvalArr script args`. -/
def Tile38Query.whereEval (q : Tile38Query) (script : String) (args : List Arg) : Tile38Query :=
  { q with options := { q.options with whereEval := addToArray q.options.whereEval (whereEvalArr script args) } }

/-- The `let arr` of `whereEvalSha`: the sha is passed bare. -/
def whereEvalShaArr (sha : String) (args : List Arg) : List Arg :=
  [.str "WHEREEVALSHA", .str sha, .num args.length] ++ args

/-- `whereEvalSha(sha, ...args)`: appends `whereEvalShaArr sha args`. -/
def Tile38Query.whereEvalSha (q : Tile38Query) (sha : String) (args : List Arg) : Tile38Query :=
  { q with options := { q.options with whereEvalSha := addToArray q.options.whereEvalSha (whereEvalShaArr sha args) } }

/-- `clip()`. -/
def Tile38Query.clip (q : Tile38Query) : Tile38Query :=
  { q with options := { q.options with clip := some "CLIP" } }

/-- `nofields()`. -/
def Tile38Query.nofields (q : Tile38Query) : Tile38Query :=
  { q with options := { q.options with nofields := some "NOFIELDS" } }

/-- `detect(...values)`: `["DETECT", values.join(",")]`. -/
def Tile38Query.detect (q : Tile38Query) (values : List String) : Tile38Query :=
  { q with options :=
    { q.options with detect := some [.str "DETECT", .str (String.intercalate "," values)] } }

/-- `commands(...values)`: `["COMMANDS", values.join(",")]`. -/
def Tile38Query.commands (q : Tile38Query) (values : List String) : Tile38Query :=
  { q with options :=
    { q.options with commands := some [.str "COMMANDS", .str (String.intercalate "," values)] } }

/-- The JS value stored for an optional numeric parameter: a number, or
`undefined` when the parameter was not supplied. -/
def Arg.ofOptNum : Option Int → Arg
| some n => .num n
| none => .undefined

/-- `output(type, precision?)`: `[type, precision]` when `type == "hashes"`
(`precision` may be `undefined` there), otherwise `[type]`. -/
def Tile38Query.output (q : Tile38Query) (type : String) (precision : Option Int) : Tile38Query :=
  if type = "hashes" then
    { q with options := { q.options with output := some [.str type, Arg.ofOptNum precision] } }
  else
    { q with options := { q.options with output := some [.str type] } }

/-- `ids()`. -/
def Tile38Query.ids (q : Tile38Query) : Tile38Query := q.output "ids" none

/-- `count()`. -/
def Tile38Query.count (q : Tile38Query) : Tile38Query := q.output "count" none

/-- `objects()`. -/
def Tile38Query.objects (q : Tile38Query) : Tile38Query := q.output "objects" none

/-- `points()`. -/
def Tile38Query.points (q : Tile38Query) : Tile38Query := q.output "points" none

/-- JS loose `a < b` where `a` may be `undefined`: comparisons against
`undefined` are false. -/
def jsLtNum : Option Int → Int → Bool
| none, _ => false
| some a, b => decide (a < b)

/-- JS loose `a > b` where `a` may be `undefined`. -/
def jsGtNum : Option Int → Int → Bool
| none, _ => false
| some a, b => decide (b < a)

/-- `hashes(precision)`, including its guard exactly as written in the
source: `if (precision != undefined || (precision < 1 || precision > 22))
throw ...`.  JS `precision != undefined` is `Option.isSome`; `undefined < 1`
and `undefined > 22` are both false. -/
def Tile38Query.hashes (q : Tile38Query) (precision : Option Int) : Except String Tile38Query :=
  if precision.isSome || (jsLtNum precision 1 || jsGtNum precision 22) then
    Except.error "for the hashes output type, precision must be a integer between 1 and 22 inclusive."
  else
    Except.ok (q.output "hashes" precision)

/-- `getObject(key, id)`. -/
def Tile38Query.getObject (q : Tile38Query) (key id : String) : Tile38Query :=
  { q with options := { q.options with getObject := some [.str "GET", .str key, .str id] } }

/-- `bounds(minlat, minlon, maxlat, maxlon)`. -/
def Tile38Query.bounds (q : Tile38Query) (minlat minlon maxlat maxlon : Int) : Tile38Query :=
  { q with options := { q.options with bounds := some [.str "BOUNDS", .num minlat, .num minlon, .num maxlat, .num maxlon] } }

/-- `object(geojson)`: stores `["OBJECT", JSON.stringify(geojson)]`; the
parameter here is the stringified payload (stringification is external). -/
def Tile38Query.object (q : Tile38Query) (geojson : String) : Tile38Query :=
  { q with options := { q.options with geojson := some [.str "OBJECT", .str geojson] } }

/-- `tile(x, y, z)`. -/
def Tile38Query.tile (q : Tile38Query) (x y z : Int) : Tile38Query :=
  { q with options := { q.options with tile := some [.str "TILE", .num x, .num y, .num z] } }

/-- `quadKey(key)`. -/
def Tile38Query.quadKey (q : Tile38Query) (key : String) : Tile38Query :=
  { q with options := { q.options with quadKey := some [.str "QUADKEY", .str key] } }

/-- `hash(geohash)`. -/
def Tile38Query.hash (q : Tile38Query) (geohash : String) : Tile38Query :=
  { q with options := { q.options with hash := some [.str "HASH", .str geohash] } }

/-- `circle(lat, lon, meters)`. -/
def Tile38Query.circle (q : Tile38Query) (lat lon meters : Int) : Tile38Query :=
  { q with options := { q.options with circle := some [.str "CIRCLE", .num lat, .num lon, .num meters] } }

/-- `point(lat, lon, meters)`: stores `["POINT", lat, lon]` and pushes
`meters` only when it was supplied (`meters !== undefined`). -/
def Tile38Query.point (q : Tile38Query) (lat lon : Int) (meters : Option Int) : Tile38Query :=
  { q with options := { q.options with point := some ([.str "POINT", .num lat, .num lon] ++ (meters.map Arg.num).toList) } }

/-- `roam(key, pattern, meters)`. -/
def Tile38Query.roam (q : Tile38Query) (key pattern : String) (meters : Int) : Tile38Query :=
  { q with options :=
    { q.options with roam := some [.str "ROAM", .str key, .str pattern, .num meters] } }

/-- The field names the serialization loop of `commandArr` iterates over
(`let commands = [...]` in the source). -/
inductive FieldName
| cursor | limit | sparse | matches_ | order | distance | where_ | whereIn
| whereEval | whereEvalSha | clip | nofields | fence | detect | commands
| output | getObject | bounds | geojson | tile | quadKey | hash | point
| circle | roam
deriving DecidableEq, Repr

/-- A JS value as the loop body of `commandArr` sees `o[c]`: `undefined`,
an array of arguments, or a simple string. -/
inductive JsVal
| undefined
| jarr (l : List Arg)
| jstr (s : String)
deriving DecidableEq, Repr

/-- View an `Option (List Arg)` field as the JS value held in it. -/
def JsVal.ofArr : Option (List Arg) → JsVal
| none => .undefined
| some l => .jarr l

/-- View an `Option String` field as the JS value held in it. -/
def JsVal.ofStr : Option String → JsVal
| none => .undefined
| some s => .jstr s

/-- The dynamic lookup `o[c]` for each field name in the loop.  The
accumulating fields are always arrays; `order` is always a string (its
enum value); all other fields may be `undefined`. -/
def Tile38QueryOpts.get (o : Tile38QueryOpts) : FieldName → JsVal
| .cursor => JsVal.ofArr o.cursor
| .limit => JsVal.ofArr o.limit
| .sparse => JsVal.ofArr o.sparse
| .matches_ => .jarr o.matches_
| .order => .jstr o.order.val
| .distance => JsVal.ofStr o.distance
| .where_ => .jarr o.where_
| .whereIn => .jarr o.whereIn
| .whereEval => .jarr o.whereEval
| .whereEvalSha => .jarr o.whereEvalSha
| .clip => JsVal.ofStr o.clip
| .nofields => JsVal.ofStr o.nofields
| .fence => JsVal.ofStr o.fence
| .detect => JsVal.ofArr o.detect
| .commands => JsVal.ofArr o.commands
| .output => JsVal.ofArr o.output
| .getObject => JsVal.ofArr o.getObject
| .bounds => JsVal.ofArr o.bounds
| .geojson => JsVal.ofArr o.geojson
| .tile => JsVal.ofArr o.tile
| .quadKey => JsVal.ofArr o.quadKey
| .hash => JsVal.ofArr o.hash
| .point => JsVal.ofArr o.point
| .circle => JsVal.ofArr o.circle
| .roam => JsVal.ofArr o.roam

/-- The loop body of `commandArr`: skip `undefined`, push every element of
an array, push a simple string as one element. -/
def pushOpt : JsVal → List Arg
| .undefined => []
| .jarr l => l
| .jstr s => [.str s]

/-- The fixed iteration order of the serialization loop, exactly the
`commands` array literal in `commandArr`. -/
def commandOrder : List FieldName :=
  [.cursor, .limit, .sparse, .matches_, .order, .distance, .where_, .whereIn,
   .whereEval, .whereEvalSha, .clip, .nofields, .fence, .detect, .commands,
   .output, .getObject, .bounds, .geojson, .tile, .quadKey, .hash, .point,
   .circle, .roam]

/-- `commandArr()`: `cmd` starts as `[this.key]` and each present clause's
elements are pushed in loop order. -/
def Tile38Query.commandArr (q : Tile38Query) : List Arg :=
  commandOrder.foldl (fun cmd c => cmd ++ pushOpt (q.options.get c)) [Arg.str q.key]

/-- The `commandArr()` method viewed as a call on the builder: it returns
the argument array and the builder state afterwards.  The method body only
reads `this.options` (it allocates a local `cmd` and pushes into it), so
the state it leaves behind is the state it was called in. -/
def Tile38Query.commandArrM (q : Tile38Query) : List Arg × Tile38Query :=
  (q.commandArr, q)

/-- `execute()`: sends `(type, commandArr())` to the client.  The network
round trip is external; the embedded value is the argument array handed
to `sendCommand`. -/
def Tile38Query.execute (q : Tile38Query) : List Arg :=
  q.commandArr

/-- `executeFence(callback)`: sets `this.options.fence = "FENCE"` and hands
`commandArr()` of the mutated builder to `openLiveFence`.  The embedded
result is the mutated builder together with that argument array. -/
def Tile38Query.executeFence (q : Tile38Query) : Tile38Query × List Arg :=
  let q2 : Tile38Query := { q with options := { q.options with fence := some "FENCE" } }
  (q2, q2.commandArr)

/-- One caller-visible builder invocation: one constructor per chainable
method of `Tile38Query` (plus `executeFence`, which also mutates the
builder before serializing). -/
inductive BuilderCall
| cursor (start : Int)
| limit (count : Int)
| sparse (spread : Int)
| match_ (value : String)
| order (val : OrderType)
| asc
| desc
| distance
| where_ (field : String) (criteria : List Arg)
| whereIn (field : String) (values : List Arg)
| whereEval (script : String) (args : List Arg)
| whereEvalSha (sha : String) (args : List Arg)
| clip
| nofields
| detect (values : List String)
| commands (values : List String)
| output (type : String) (precision : Option Int)
| ids
| count
| objects
| points
| hashes (precision : Option Int)
| getObject (key id : String)
| bounds (minlat minlon maxlat maxlon : Int)
| object (geojson : String)
| tile (x y z : Int)
| quadKey (key : String)
| hash (geohash : String)
| circle (lat lon meters : Int)
| point (lat lon : Int) (meters : Option Int)
| roam (key pattern : String) (meters : Int)
| executeFence

/-- Apply one builder invocation to the builder state.  `hashes` leaves the
state untouched when it throws (the guard runs before any assignment);
`executeFence` contributes its state mutation. -/
def applyCall (q : Tile38Query) : BuilderCall → Tile38Query
| .cursor start => q.cursor start
| .limit count => q.limit count
| .sparse spread => q.sparse spread
| .match_ value => q.match_ value
| .order val => q.order val
| .asc => q.asc
| .desc => q.desc
| .distance => q.distance
| .where_ field criteria => q.where_ field criteria
| .whereIn field values => q.whereIn field values
| .whereEval script args => q.whereEval script args
| .whereEvalSha sha args => q.whereEvalSha sha args
| .clip => q.clip
| .nofields => q.nofields
| .detect values => q.detect values
| .commands values => q.commands values
| .output type precision => q.output type precision
| .ids => q.ids
| .count => q.count
| .objects => q.objects
| .points => q.points
| .hashes precision =>
  match q.hashes precision with
  | .ok q2 => q2
  | .error _ => q
| .getObject key id => q.getObject key id
| .bounds a b c d => q.bounds a b c d
| .object geojson => q.object geojson
| .tile x y z => q.tile x y z
| .quadKey key => q.quadKey key
| .hash geohash => q.hash geohash
| .circle lat lon meters => q.circle lat lon meters
| .point lat lon meters => q.point lat lon meters
| .roam key pattern meters => q.roam key pattern meters
| .executeFence => (q.executeFence).1

/-- Apply a sequence of builder invocations left to right. -/
def applyCalls (q : Tile38Query) (cs : List BuilderCall) : Tile38Query :=
  cs.foldl applyCall q

/-- The `MATCH` fragment contributed by one builder invocation: non-empty
only for `match` calls. -/
def matchFragOf : BuilderCall → List Arg
| .match_ value => [.str "MATCH", .str value]
| _ => []

/-- The `WHERE` fragment contributed by one builder invocation. -/
def whereFragOf : BuilderCall → List Arg
| .where_ field criteria => [.str "WHERE", .str field] ++ criteria
| _ => []

/-- The `WHEREIN` fragment contributed by one builder invocation. -/
def whereInFragOf : BuilderCall → List Arg
| .whereIn field values => whereInArr field values
| _ => []

/-- The `WHEREEVAL` fragment contributed by one builder invocation. -/
def whereEvalFragOf : BuilderCall → List Arg
| .whereEval script args => whereEvalArr script args
| _ => []

/-- The `WHEREEVALSHA` fragment contributed by one builder invocation. -/
def whereEvalShaFragOf : BuilderCall → List Arg
| .whereEvalSha sha args => whereEvalShaArr sha args
| _ => []

/-- Concatenate, in call order, the fragments a call sequence contributes
to one repeatable clause group. -/
def groupFrags (f : BuilderCall → List Arg) (cs : List BuilderCall) : List Arg :=
  cs.foldr (fun c acc => f c ++ acc) []

/-- The left-brace character, `'\x7b'` (first character of a JSON object). -/
def lbraceChar : Char := Char.ofNat 123

/-- The left-bracket character, `'\x5b'` (first character of a JSON array). -/
def lbrackChar : Char := Char.ofNat 91

/-- A payload as the `LiveGeofence` handler receives it: either the raw
reply text, or the structured value produced by `JSON.parse`.  The
structured value is represented by the text it was parsed from the model
of `JSON.parse` returns. -/
inductive Payload
| raw (s : String)
| parsed (v : String)
deriving DecidableEq, Repr

/-- One invocation of the caller-supplied `callback(err, results)`. -/
structure HandlerCall where
  err : Option String
  payload : Option Payload
deriving DecidableEq, Repr

/-- Observable state of one `LiveGeofence` channel: whether the socket is
still open (not destroyed), whether `onClose` registered an observer, the
arguments of every close-observer invocation so far, and the arguments of
every handler invocation so far. -/
structure GeofenceState where
  socketOpen : Bool
  onCloseCbSet : Bool
  closeCbCalls : List Bool
  handlerCalls : List HandlerCall
deriving DecidableEq, Repr

/-- The channel state right after `open(...)` returns: socket connected,
no calls delivered yet.  `cbSet` records whether the caller registered a
close observer via `onClose`. -/
def openedState (cbSet : Bool) : GeofenceState :=
  ⟨true, cbSet, [], []⟩

/-- The body of the `returnReply` parser callback: the payload forwarded
for one decoded reply.  When the first character looks like JSON, the
reply is run through `JSON.parse` (modelled by the external function `jp`;
`none` models a parse exception, in which case a warning is logged and the
raw text is forwarded unchanged). -/
def decodeReply (jp : String → Option String) (reply : String) : Payload :=
  let f := reply.front
  if f = lbraceChar ∨ f = lbrackChar then
    match jp reply with
    | some v => .parsed v
    | none => .raw reply
  else .raw reply

/-- `returnReply`: the `'OK'` acknowledgment is suppressed (early return);
any other reply is forwarded to the handler as `callback(null, response)`. -/
def returnReply (jp : String → Option String) (st : GeofenceState) (reply : String) :
    GeofenceState :=
  if reply = "OK" then st
  else { st with handlerCalls := st.handlerCalls ++ [⟨none, some (decodeReply jp reply)⟩] }

/-- `returnError`: a recoverable error is forwarded as `callback(err, null)`;
the socket is left alone. -/
def returnError (st : GeofenceState) (err : String) : GeofenceState :=
  { st with handlerCalls := st.handlerCalls ++ [⟨some err, none⟩] }

/-- `returnFatalError`: `self.socket.destroy()` first, then
`callback(err, null)`. -/
def returnFatalError (st : GeofenceState) (err : String) : GeofenceState :=
  let st1 : GeofenceState := { st with socketOpen := false }
  { st1 with handlerCalls := st1.handlerCalls ++ [⟨some err, none⟩] }

/-- The listener registered with `socket.on('close', ...)`: whenever the
socket emits its close event it invokes the registered observer — if one
is set — with the argument `false`, unconditionally. -/
def closeListener (st : GeofenceState) : GeofenceState :=
  if st.onCloseCbSet then { st with closeCbCalls := st.closeCbCalls ++ [false] } else st

/-- `close()`: `if (this.socket) this.socket.destroy()`.  Destroying marks
the socket closed; destroying an already-destroyed socket is a no-op. -/
def GeofenceState.close (st : GeofenceState) : GeofenceState :=
  if st.socketOpen then { st with socketOpen := false } else st

/-- Events a channel reacts to.  The `data...` events are the parser
callbacks, fired once per decoded frame; a destroyed socket emits no
further `data` events, so they only act while the socket is open.
`socketClosed` is the transport's `'close'` notification: a Node
`net.Socket` emits it once after the socket has been destroyed, whether
the destruction was caller-initiated (`close()`), channel-initiated
(fatal error) or peer-initiated.  `callerClose` is the caller invoking
`LiveGeofence.close()`. -/
inductive Ev
| dataReply (s : String)
| dataError (s : String)
| dataFatal (s : String)
| socketClosed
| callerClose
deriving DecidableEq, Repr

/-- One step of the channel: dispatch one event against the source's
callbacks. -/
def step (jp : String → Option String) (st : GeofenceState) : Ev → GeofenceState
| .dataReply s => if st.socketOpen then returnReply jp st s else st
| .dataError s => if st.socketOpen then returnError st s else st
| .dataFatal s => if st.socketOpen then returnFatalError st s else st
| .socketClosed => closeListener st
| .callerClose => st.close

/-- Run the channel over a sequence of events. -/
def runEvents (jp : String → Option String) (st : GeofenceState) (evs : List Ev) :
    GeofenceState :=
  evs.foldl (step jp) st

/-- Unrolling the serialization loop: the output is the key followed by
each clause kind's fragment in the fixed `commandOrder`. -/
lemma Tile38Query.commandArr_decomp (q : Tile38Query) :
    q.commandArr =
      Arg.str q.key ::
        (pushOpt (q.options.get .cursor) ++ pushOpt (q.options.get .limit) ++
         pushOpt (q.options.get .sparse) ++ pushOpt (q.options.get .matches_) ++
         pushOpt (q.options.get .order) ++ pushOpt (q.options.get .distance) ++
         pushOpt (q.options.get .where_) ++ pushOpt (q.options.get .whereIn) ++
         pushOpt (q.options.get .whereEval) ++ pushOpt (q.options.get .whereEvalSha) ++
         pushOpt (q.options.get .clip) ++ pushOpt (q.options.get .nofields) ++
         pushOpt (q.options.get .fence) ++ pushOpt (q.options.get .detect) ++
         pushOpt (q.options.get .commands) ++ pushOpt (q.options.get .output) ++
         pushOpt (q.options.get .getObject) ++ pushOpt (q.options.get .bounds) ++
         pushOpt (q.options.get .geojson) ++ pushOpt (q.options.get .tile) ++
         pushOpt (q.options.get .quadKey) ++ pushOpt (q.options.get .hash) ++
         pushOpt (q.options.get .point) ++ pushOpt (q.options.get .circle) ++
         pushOpt (q.options.get .roam)) := by
  simp [Tile38Query.commandArr, commandOrder, List.append_assoc]

/-- Each builder invocation appends exactly its `MATCH` fragment to the
`matches` group (and nothing otherwise). -/
lemma matches_applyCall (q : Tile38Query) (c : BuilderCall) :
    (applyCall q c).options.matches_ = q.options.matches_ ++ matchFragOf c := by
  cases c <;>
    simp [applyCall, matchFragOf, addToArray,
      Tile38Query.cursor, Tile38Query.limit, Tile38Query.sparse, Tile38Query.match_,
      Tile38Query.order, Tile38Query.asc, Tile38Query.desc, Tile38Query.distance,
      Tile38Query.where_, Tile38Query.whereIn, Tile38Query.whereEval,
      Tile38Query.whereEvalSha, Tile38Query.clip, Tile38Query.nofields,
      Tile38Query.detect, Tile38Query.commands, Tile38Query.output,
      Tile38Query.ids, Tile38Query.count, Tile38Query.objects, Tile38Query.points,
      Tile38Query.hashes, Tile38Query.getObject, Tile38Query.bounds,
      Tile38Query.object, Tile38Query.tile, Tile38Query.quadKey, Tile38Query.hash,
      Tile38Query.circle, Tile38Query.point, Tile38Query.roam,
      Tile38Query.executeFence]
  case output type precision => split <;> rfl
  case hashes precision =>
    cases precision <;> simp [jsLtNum, jsGtNum, Tile38Query.output]

/-- Each builder invocation appends exactly its `WHERE` fragment to the
`where` group. -/
lemma where_applyCall (q : Tile38Query) (c : BuilderCall) :
    (applyCall q c).options.where_ = q.options.where_ ++ whereFragOf c := by
  cases c <;>
    simp [applyCall, whereFragOf, addToArray,
      Tile38Query.cursor, Tile38Query.limit, Tile38Query.sparse, Tile38Query.match_,
      Tile38Query.order, Tile38Query.asc, Tile38Query.desc, Tile38Query.distance,
      Tile38Query.where_, Tile38Query.whereIn, Tile38Query.whereEval,
      Tile38Query.whereEvalSha, Tile38Query.clip, Tile38Query.nofields,
      Tile38Query.detect, Tile38Query.commands, Tile38Query.output,
      Tile38Query.ids, Tile38Query.count, Tile38Query.objects, Tile38Query.points,
      Tile38Query.hashes, Tile38Query.getObject, Tile38Query.bounds,
      Tile38Query.object, Tile38Query.tile, Tile38Query.quadKey, Tile38Query.hash,
      Tile38Query.circle, Tile38Query.point, Tile38Query.roam,
      Tile38Query.executeFence]
  case output type precision => split <;> rfl
  case hashes precision =>
    cases precision <;> simp [jsLtNum, jsGtNum, Tile38Query.output]

/-- Each builder invocation appends exactly its `WHEREIN` fragment to the
`whereIn` group. -/
lemma whereIn_applyCall (q : Tile38Query) (c : BuilderCall) :
    (applyCall q c).options.whereIn = q.options.whereIn ++ whereInFragOf c := by
  cases c <;>
    simp [applyCall, whereInFragOf, addToArray,
      Tile38Query.cursor, Tile38Query.limit, Tile38Query.sparse, Tile38Query.match_,
      Tile38Query.order, Tile38Query.asc, Tile38Query.desc, Tile38Query.distance,
      Tile38Query.where_, Tile38Query.whereIn, Tile38Query.whereEval,
      Tile38Query.whereEvalSha, Tile38Query.clip, Tile38Query.nofields,
      Tile38Query.detect, Tile38Query.commands, Tile38Query.output,
      Tile38Query.ids, Tile38Query.count, Tile38Query.objects, Tile38Query.points,
      Tile38Query.hashes, Tile38Query.getObject, Tile38Query.bounds,
      Tile38Query.object, Tile38Query.tile, Tile38Query.quadKey, Tile38Query.hash,
      Tile38Query.circle, Tile38Query.point, Tile38Query.roam,
      Tile38Query.executeFence]
  case output type precision => split <;> rfl
  case hashes precision =>
    cases precision <;> simp [jsLtNum, jsGtNum, Tile38Query.output]

/-- Each builder invocation appends exactly its `WHEREEVAL` fragment to the
`whereEval` group. -/
lemma whereEval_applyCall (q : Tile38Query) (c : BuilderCall) :
    (applyCall q c).options.whereEval = q.options.whereEval ++ whereEvalFragOf c := by
  cases c <;>
    simp [applyCall, whereEvalFragOf, addToArray,
      Tile38Query.cursor, Tile38Query.limit, Tile38Query.sparse, Tile38Query.match_,
      Tile38Query.order, Tile38Query.asc, Tile38Query.desc, Tile38Query.distance,
      Tile38Query.where_, Tile38Query.whereIn, Tile38Query.whereEval,
      Tile38Query.whereEvalSha, Tile38Query.clip, Tile38Query.nofields,
      Tile38Query.detect, Tile38Query.commands, Tile38Query.output,
      Tile38Query.ids, Tile38Query.count, Tile38Query.objects, Tile38Query.points,
      Tile38Query.hashes, Tile38Query.getObject, Tile38Query.bounds,
      Tile38Query.object, Tile38Query.tile, Tile38Query.quadKey, Tile38Query.hash,
      Tile38Query.circle, Tile38Query.point, Tile38Query.roam,
      Tile38Query.executeFence]
  case output type precision => split <;> rfl
  case hashes precision =>
    cases precision <;> simp [jsLtNum, jsGtNum, Tile38Query.output]

/-- Each builder invocation appends exactly its `WHEREEVALSHA` fragment to
the `whereEvalSha` group. -/
lemma whereEvalSha_applyCall (q : Tile38Query) (c : BuilderCall) :
    (applyCall q c).options.whereEvalSha = q.options.whereEvalSha ++ whereEvalShaFragOf c := by
  cases c <;>
    simp [applyCall, whereEvalShaFragOf, addToArray,
      Tile38Query.cursor, Tile38Query.limit, Tile38Query.sparse, Tile38Query.match_,
      Tile38Query.order, Tile38Query.asc, Tile38Query.desc, Tile38Query.distance,
      Tile38Query.where_, Tile38Query.whereIn, Tile38Query.whereEval,
      Tile38Query.whereEvalSha, Tile38Query.clip, Tile38Query.nofields,
      Tile38Query.detect, Tile38Query.commands, Tile38Query.output,
      Tile38Query.ids, Tile38Query.count, Tile38Query.objects, Tile38Query.points,
      Tile38Query.hashes, Tile38Query.getObject, Tile38Query.bounds,
      Tile38Query.object, Tile38Query.tile, Tile38Query.quadKey, Tile38Query.hash,
      Tile38Query.circle, Tile38Query.point, Tile38Query.roam,
      Tile38Query.executeFence]
  case output type precision => split <;> rfl
  case hashes precision =>
    cases precision <;> simp [jsLtNum, jsGtNum, Tile38Query.output]

/-- Lifting a per-call group equation to call sequences: the group
accumulates its fragments in call order, whatever other calls are
interleaved. -/
lemma applyCalls_group (g : Tile38Query → List Arg) (f : BuilderCall → List Arg)
    (h : ∀ q c, g (applyCall q c) = g q ++ f c) :
    ∀ (cs : List BuilderCall) (q : Tile38Query),
      g (applyCalls q cs) = g q ++ groupFrags f cs := by
  intro cs
  induction cs with
  | nil => intro q; simp [applyCalls, groupFrags]
  | cons c cs ih =>
    intro q
    have h1 : applyCalls q (c :: cs) = applyCalls (applyCall q c) cs := rfl
    rw [h1, ih, h]
    simp [groupFrags, List.append_assoc]

/-- No builder invocation clears the `fence` clause: a call either leaves
it alone or (for `executeFence`) sets it to `"FENCE"`. -/
lemma fence_applyCall (q : Tile38Query) (c : BuilderCall) :
    (applyCall q c).options.fence = q.options.fence ∨
      (applyCall q c).options.fence = some "FENCE" := by
  cases c <;>
    simp [applyCall, addToArray,
      Tile38Query.cursor, Tile38Query.limit, Tile38Query.sparse, Tile38Query.match_,
      Tile38Query.order, Tile38Query.asc, Tile38Query.desc, Tile38Query.distance,
      Tile38Query.where_, Tile38Query.whereIn, Tile38Query.whereEval,
      Tile38Query.whereEvalSha, Tile38Query.clip, Tile38Query.nofields,
      Tile38Query.detect, Tile38Query.commands, Tile38Query.output,
      Tile38Query.ids, Tile38Query.count, Tile38Query.objects, Tile38Query.points,
      Tile38Query.hashes, Tile38Query.getObject, Tile38Query.bounds,
      Tile38Query.object, Tile38Query.tile, Tile38Query.quadKey, Tile38Query.hash,
      Tile38Query.circle, Tile38Query.point, Tile38Query.roam,
      Tile38Query.executeFence]
  case output type precision => split <;> simp
  case hashes precision =>
    cases precision <;> simp [jsLtNum, jsGtNum, Tile38Query.output]

/-- Once `fence` holds `"FENCE"`, any further call sequence keeps it. -/
lemma fence_applyCalls (cs : List BuilderCall) :
    ∀ q : Tile38Query, q.options.fence = some "FENCE" →
      (applyCalls q cs).options.fence = some "FENCE" := by
  induction cs with
  | nil => intro q h; exact h
  | cons c cs ih =>
    intro q h
    have h1 : applyCalls q (c :: cs) = applyCalls (applyCall q c) cs := rfl
    rw [h1]
    apply ih
    rcases fence_applyCall q c with h2 | h2
    · rw [h2, h]
    · exact h2

/-- A builder whose `fence` clause is set serializes the `FENCE` keyword. -/
lemma fence_mem_commandArr (q : Tile38Query) (h : q.options.fence = some "FENCE") :
    Arg.str "FENCE" ∈ q.commandArr := by
  rw [Tile38Query.commandArr_decomp]
  simp [Tile38QueryOpts.get, JsVal.ofStr, h, pushOpt]

/-- An `'OK'` reply event changes nothing: suppressed while open, and a
destroyed socket delivers no data events at all. -/
lemma step_reply_ok (jp : String → Option String) (st : GeofenceState) :
    step jp st (.dataReply "OK") = st := by
  by_cases h : st.socketOpen <;> simp [step, returnReply, h]

/-- From a closed socket, no later event adds a handler invocation or
reopens the socket. -/
lemma handlerCalls_of_closed (jp : String → Option String) (evs : List Ev) :
    ∀ st : GeofenceState, st.socketOpen = false →
      (runEvents jp st evs).handlerCalls = st.handlerCalls ∧
        (runEvents jp st evs).socketOpen = false := by
  induction evs with
  | nil => intro st h; exact ⟨rfl, h⟩
  | cons ev evs ih =>
    intro st h
    have h1 : runEvents jp st (ev :: evs) = runEvents jp (step jp st ev) evs := rfl
    rw [h1]
    have h2 : (step jp st ev).handlerCalls = st.handlerCalls ∧
        (step jp st ev).socketOpen = false := by
      cases ev <;> simp [step, h, closeListener, GeofenceState.close]
      case socketClosed => split <;> simp [h]
    rcases ih (step jp st ev) h2.2 with ⟨h3, h4⟩
    exact ⟨h3.trans h2.1, h4⟩

/-- Claim C1: serialization emits each present clause kind's fragments at
its fixed position — key first, then cursor, limit, sparse, match, order,
distance, where, where-in, where-eval, where-eval-sha, clip, no-fields,
fence, detect, commands, output, get-object, bounds, geometry-object,
tile, quad-key, hash, point, circle, roam — the position depending only on
the clause kind's final state, never on the order of the builder calls;
and within each repeatable clause group (match, where, where-in,
where-eval, where-eval-sha) the fragments accumulate in call order,
whatever other calls are interleaved. -/
theorem c1_fixed_position_serialization :
    (∀ q : Tile38Query,
      q.commandArr =
        Arg.str q.key ::
          (pushOpt (q.options.get .cursor) ++ pushOpt (q.options.get .limit) ++
           pushOpt (q.options.get .sparse) ++ pushOpt (q.options.get .matches_) ++
           pushOpt (q.options.get .order) ++ pushOpt (q.options.get .distance) ++
           pushOpt (q.options.get .where_) ++ pushOpt (q.options.get .whereIn) ++
           pushOpt (q.options.get .whereEval) ++ pushOpt (q.options.get .whereEvalSha) ++
           pushOpt (q.options.get .clip) ++ pushOpt (q.options.get .nofields) ++
           pushOpt (q.options.get .fence) ++ pushOpt (q.options.get .detect) ++
           pushOpt (q.options.get .commands) ++ pushOpt (q.options.get .output) ++
           pushOpt (q.options.get .getObject) ++ pushOpt (q.options.get .bounds) ++
           pushOpt (q.options.get .geojson) ++ pushOpt (q.options.get .tile) ++
           pushOpt (q.options.get .quadKey) ++ pushOpt (q.options.get .hash) ++
           pushOpt (q.options.get .point) ++ pushOpt (q.options.get .circle) ++
           pushOpt (q.options.get .roam))) ∧
    (∀ (cs : List BuilderCall) (q : Tile38Query),
      (applyCalls q cs).options.matches_ =
        q.options.matches_ ++ groupFrags matchFragOf cs) ∧
    (∀ (cs : List BuilderCall) (q : Tile38Query),
      (applyCalls q cs).options.where_ =
        q.options.where_ ++ groupFrags whereFragOf cs) ∧
    (∀ (cs : List BuilderCall) (q : Tile38Query),
      (applyCalls q cs).options.whereIn =
        q.options.whereIn ++ groupFrags whereInFragOf cs) ∧
    (∀ (cs : List BuilderCall) (q : Tile38Query),
      (applyCalls q cs).options.whereEval =
        q.options.whereEval ++ groupFrags whereEvalFragOf cs) ∧
    (∀ (cs : List BuilderCall) (q : Tile38Query),
      (applyCalls q cs).options.whereEvalSha =
        q.options.whereEvalSha ++ groupFrags whereEvalShaFragOf cs) := by
  refine ⟨Tile38Query.commandArr_decomp, ?_, ?_, ?_, ?_, ?_⟩
  · exact applyCalls_group (fun q => q.options.matches_) matchFragOf matches_applyCall
  · exact applyCalls_group (fun q => q.options.where_) whereFragOf where_applyCall
  · exact applyCalls_group (fun q => q.options.whereIn) whereInFragOf whereIn_applyCall
  · exact applyCalls_group (fun q => q.options.whereEval) whereEvalFragOf whereEval_applyCall
  · exact applyCalls_group (fun q => q.options.whereEvalSha) whereEvalShaFragOf whereEvalSha_applyCall

/-- Claim C2 (code evaluation): the guard of `hashes` as written —
`precision != undefined || (precision < 1 || precision > 22)` — throws the
validation error for every supplied precision, in particular for 1 and 22
(which the spec says must succeed), as well as for 0 and 23. -/
theorem c2_hashes_guard_eval :
    (Tile38Query.intersects "fleet").hashes (some 1) =
      Except.error "for the hashes output type, precision must be a integer between 1 and 22 inclusive." ∧
    (Tile38Query.intersects "fleet").hashes (some 22) =
      Except.error "for the hashes output type, precision must be a integer between 1 and 22 inclusive." ∧
    (Tile38Query.intersects "fleet").hashes (some 0) =
      Except.error "for the hashes output type, precision must be a integer between 1 and 22 inclusive." ∧
    (Tile38Query.intersects "fleet").hashes (some 23) =
      Except.error "for the hashes output type, precision must be a integer between 1 and 22 inclusive." := by
  exact ⟨rfl, rfl, rfl, rfl⟩

/-- Claim C3 (code evaluation): a channel opened with a registered close
observer, whose caller then invokes `close()` with no unsolicited closure
anywhere, still ends with the observer invoked once with `false`: the
socket's own close event — which Node emits after `destroy()` — fires the
unconditional `'close'` listener. -/
theorem c3_close_invokes_observer :
    runEvents (fun _ => none) (openedState true) [Ev.callerClose, Ev.socketClosed] =
      ⟨false, true, [false], []⟩ := by
  rfl

/-- Claim C4 (counterexample): for the scripted stream of one
acknowledgment, one JSON-object reply, and one fatal error, the handler
does not receive exactly one invocation — it receives two, because the
fatal error is forwarded to the handler as well (after the transport has
been destroyed). -/
theorem c4_counterexample :
    (runEvents (fun s => some s) (openedState false)
        [Ev.dataReply "OK", Ev.dataReply "[1,2]", Ev.dataFatal "fatal"]).handlerCalls =
      [⟨none, some (Payload.parsed "[1,2]")⟩, ⟨some "fatal", none⟩] ∧
    (runEvents (fun s => some s) (openedState false)
        [Ev.dataReply "OK", Ev.dataReply "[1,2]", Ev.dataFatal "fatal"]).handlerCalls.length ≠ 1 := by
  exact ⟨rfl, by decide⟩

/-- Claim C4 (amended): for the scripted stream, the handler receives
exactly one invocation while the channel is open — the JSON frame, the
acknowledgment being suppressed — and then exactly one more forwarding the
fatal error as `(error, null)`, recorded after the transport is destroyed;
the channel ends closed and no events whatsoever can add further handler
invocations afterwards. -/
theorem c4_amended (jp : String → Option String) (e : String) (rest : List Ev) :
    (runEvents jp (openedState false) [Ev.dataReply "OK", Ev.dataReply "[1,2]"]).socketOpen =
      true ∧
    (runEvents jp (openedState false) [Ev.dataReply "OK", Ev.dataReply "[1,2]"]).handlerCalls =
      [⟨none, some (decodeReply jp "[1,2]")⟩] ∧
    (runEvents jp (openedState false)
        ([Ev.dataReply "OK", Ev.dataReply "[1,2]", Ev.dataFatal e] ++ rest)).socketOpen =
      false ∧
    (runEvents jp (openedState false)
        ([Ev.dataReply "OK", Ev.dataReply "[1,2]", Ev.dataFatal e] ++ rest)).handlerCalls =
      [⟨none, some (decodeReply jp "[1,2]")⟩, ⟨some e, none⟩] := by
  have hmid : runEvents jp (openedState false) [Ev.dataReply "OK", Ev.dataReply "[1,2]"] =
      ⟨true, false, [], [⟨none, some (decodeReply jp "[1,2]")⟩]⟩ := rfl
  have hscripted : runEvents jp (openedState false)
      [Ev.dataReply "OK", Ev.dataReply "[1,2]", Ev.dataFatal e] =
      ⟨false, false, [], [⟨none, some (decodeReply jp "[1,2]")⟩, ⟨some e, none⟩]⟩ := rfl
  have hsplit : runEvents jp (openedState false)
      ([Ev.dataReply "OK", Ev.dataReply "[1,2]", Ev.dataFatal e] ++ rest) =
      runEvents jp (runEvents jp (openedState false)
        [Ev.dataReply "OK", Ev.dataReply "[1,2]", Ev.dataFatal e]) rest := by
    simp [runEvents, List.foldl_append]
  rcases handlerCalls_of_closed jp rest
      ⟨false, false, [], [⟨none, some (decodeReply jp "[1,2]")⟩, ⟨some e, none⟩]⟩ rfl with ⟨h1, h2⟩
  refine ⟨by rw [hmid], by rw [hmid], ?_, ?_⟩
  · rw [hsplit, hscripted]; exact h2
  · rw [hsplit, hscripted]; exact h1

/-- Claim C5: serialization is idempotent and non-mutating — a
`commandArr()` call leaves the builder state exactly as it found it, and a
second call on that state returns the identical argument sequence. -/
theorem c5_serialization_idempotent (q : Tile38Query) :
    (q.commandArrM).2 = q ∧
    ((q.commandArrM).2.commandArrM).1 = (q.commandArrM).1 := by
  exact ⟨rfl, rfl⟩

/-- Claim C6 (counterexample): a freshly constructed builder does not
serialize to the key alone — the `order` clause has the default value
`ASC` and is always emitted. -/
theorem c6_counterexample :
    (Tile38Query.intersects "fleet").commandArr = [Arg.str "fleet", Arg.str "ASC"] ∧
    (Tile38Query.intersects "fleet").commandArr ≠ [Arg.str "fleet"] := by
  exact ⟨rfl, by decide⟩

/-- Claim C6 (amended): every clause kind except `order` contributes no
fragment, placeholder or null entry while its builder method was never
called; `order` always contributes its current value, so a builder whose
other clauses are all untouched serializes to the key followed by the
order value alone (for a fresh builder: `[key, "ASC"]`). -/
theorem c6_amended (type key : String) (ord : OrderType) :
    (Tile38Query.mk type key { order := ord }).commandArr =
      [Arg.str key, Arg.str ord.val] := by
  simp [Tile38Query.commandArr, commandOrder, Tile38QueryOpts.get, pushOpt,
    JsVal.ofArr, JsVal.ofStr]

/-- Claim C7: for every non-repeatable clause kind (order, distance, clip,
no-fields, output, bounds, geometry object, tile, quad-key, hash, point,
circle, roam, fence), calling the corresponding builder method twice
leaves the whole builder state equal to the state produced by the last
call alone. -/
theorem c7_last_call_wins :
    (∀ (q : Tile38Query) (x y : OrderType), (q.order x).order y = q.order y) ∧
    (∀ q : Tile38Query, q.distance.distance = q.distance) ∧
    (∀ q : Tile38Query, q.clip.clip = q.clip) ∧
    (∀ q : Tile38Query, q.nofields.nofields = q.nofields) ∧
    (∀ (q : Tile38Query) (t1 t2 : String) (p1 p2 : Option Int),
      (q.output t1 p1).output t2 p2 = q.output t2 p2) ∧
    (∀ (q : Tile38Query) (a b c d a2 b2 c2 d2 : Int),
      (q.bounds a b c d).bounds a2 b2 c2 d2 = q.bounds a2 b2 c2 d2) ∧
    (∀ (q : Tile38Query) (g1 g2 : String), (q.object g1).object g2 = q.object g2) ∧
    (∀ (q : Tile38Query) (x y z x2 y2 z2 : Int),
      (q.tile x y z).tile x2 y2 z2 = q.tile x2 y2 z2) ∧
    (∀ (q : Tile38Query) (k1 k2 : String), (q.quadKey k1).quadKey k2 = q.quadKey k2) ∧
    (∀ (q : Tile38Query) (g1 g2 : String), (q.hash g1).hash g2 = q.hash g2) ∧
    (∀ (q : Tile38Query) (a b : Int) (m1 : Option Int) (c d : Int) (m2 : Option Int),
      (q.point a b m1).point c d m2 = q.point c d m2) ∧
    (∀ (q : Tile38Query) (a b m a2 b2 m2 : Int),
      (q.circle a b m).circle a2 b2 m2 = q.circle a2 b2 m2) ∧
    (∀ (q : Tile38Query) (k1 p1 : String) (m1 : Int) (k2 p2 : String) (m2 : Int),
      (q.roam k1 p1 m1).roam k2 p2 m2 = q.roam k2 p2 m2) ∧
    (∀ q : Tile38Query, ((q.executeFence).1.executeFence).1 = (q.executeFence).1) := by
  refine ⟨fun q x y => rfl, fun q => rfl, fun q => rfl, fun q => rfl, ?_,
    fun q a b c d a2 b2 c2 d2 => rfl, fun q g1 g2 => rfl, fun q x y z x2 y2 z2 => rfl,
    fun q k1 k2 => rfl, fun q g1 g2 => rfl, fun q a b m1 c d m2 => rfl,
    fun q a b m a2 b2 m2 => rfl, fun q k1 p1 m1 k2 p2 m2 => rfl, fun q => rfl⟩
  intro q t1 t2 p1 p2
  by_cases h1 : t1 = "hashes" <;> by_cases h2 : t2 = "hashes" <;>
    simp [Tile38Query.output, h1, h2]

/-- Claim C8: `whereIn(field, ...values)` appends exactly
`["WHEREIN", field, values.length, ...values]` — the count element always
equals the number of forwarded values; in particular, on a fresh builder,
`whereIn(field, a, b, c)` stores exactly `["WHEREIN", field, 3, a, b, c]`. -/
theorem c8_wherein_count :
    (∀ (q : Tile38Query) (field : String) (values : List Arg),
      (q.whereIn field values).options.whereIn =
        q.options.whereIn ++
          (Arg.str "WHEREIN" :: Arg.str field :: Arg.num values.length :: values)) ∧
    (∀ (type key field : String) (a b c : Arg),
      ((Tile38Query.make type key).whereIn field [a, b, c]).options.whereIn =
        [Arg.str "WHEREIN", Arg.str field, Arg.num 3, a, b, c]) := by
  constructor
  · intro q field values
    simp [Tile38Query.whereIn, addToArray, whereInArr]
  · intro type key field a b c
    rfl

/-- Claim C9: a decoded reply equal to `'OK'` is suppressed wherever it
occurs in the frame stream — deleting (or inserting) such a frame at any
position leaves the entire observable channel behaviour unchanged, so a
genuine later payload consisting of the literal text `OK` is silently
dropped. -/
theorem c9_ok_suppressed (jp : String → Option String) (st : GeofenceState)
    (xs ys : List Ev) :
    runEvents jp st (xs ++ Ev.dataReply "OK" :: ys) = runEvents jp st (xs ++ ys) := by
  have h1 : runEvents jp st (xs ++ Ev.dataReply "OK" :: ys) =
      runEvents jp (runEvents jp st xs) (Ev.dataReply "OK" :: ys) := by
    simp [runEvents, List.foldl_append]
  have h2 : runEvents jp st (xs ++ ys) = runEvents jp (runEvents jp st xs) ys := by
    simp [runEvents, List.foldl_append]
  have h3 : runEvents jp (runEvents jp st xs) (Ev.dataReply "OK" :: ys) =
      runEvents jp (step jp (runEvents jp st xs) (Ev.dataReply "OK")) ys := rfl
  rw [h1, h3, step_reply_ok, h2]

/-- Claim C10: `executeFence` sets the fence clause to `FENCE` on the
builder's state and leaves every other clause field unchanged; the
argument sequence it sends is the serialization of that mutated state; and
every serialization performed after `executeFence` — after any further
builder calls, including a later `execute()` — contains the `FENCE`
keyword. -/
theorem c10_execute_fence (q : Tile38Query) :
    (q.executeFence).1.options = { q.options with fence := some "FENCE" } ∧
    (q.executeFence).2 = (q.executeFence).1.commandArr ∧
    (∀ cs : List BuilderCall,
      Arg.str "FENCE" ∈ (applyCalls (q.executeFence).1 cs).execute) := by
  refine ⟨rfl, rfl, ?_⟩
  intro cs
  show Arg.str "FENCE" ∈ (applyCalls (q.executeFence).1 cs).commandArr
  apply fence_mem_commandArr
  apply fence_applyCalls
  rfl
